import Mathlib

/-!
Shallow embedding of the eUPF Kubernetes charm operator
(src/charm.py, src/kubernetes_eupf.py,
src/lib/charms/kubernetes_charm_libraries/v0/multus.py).

Pure Python functions become Lean functions; Kubernetes / Pebble calls are
modelled by passing the observed results of each external read explicitly
(a `World` record of one reconciliation pass's observations) and by
recording every mutating call the pass issues in a trace of `Op` values.
Exceptions that the Python code does not catch are modelled with
`Except` / an error component: an uncaught exception aborts the pass.
-/

/-- Kubernetes data model: a volume mount of a container
(lightkube VolumeMount, fields used by the code). -/
structure VolumeMount where
  name : String
  mountPath : String
deriving DecidableEq, Repr

/-- Kubernetes data model: a pod volume (lightkube Volume with hostPath). -/
structure Volume where
  name : String
  hostPath : String
deriving DecidableEq, Repr

/-- Kubernetes data model: container capabilities (`add` list;
Python `None` and `[]` are both falsy, modelled as `[]`). -/
structure Capabilities where
  add : List String
deriving DecidableEq, Repr

/-- Kubernetes data model: a container security context. -/
structure SecurityContext where
  capabilities : Option Capabilities
  privileged : Option Bool
deriving DecidableEq, Repr

/-- Kubernetes data model: a container of a pod spec. -/
structure Container where
  name : String
  volumeMounts : Option (List VolumeMount)
  securityContext : Option SecurityContext
deriving DecidableEq, Repr

/-- Kubernetes data model: a pod spec (containers and volumes). -/
structure PodSpec where
  containers : List Container
  volumes : Option (List Volume)
deriving DecidableEq, Repr

/-- Kubernetes data model: a statefulset spec; `templateSpec` is
`statefulset.spec.template.spec`, which may be `None` in Python. -/
structure StatefulSetSpec where
  templateSpec : Option PodSpec
deriving DecidableEq, Repr

/-- Kubernetes data model: a pod, reduced to `pod.spec.containers`. -/
structure Pod where
  containers : List Container
deriving DecidableEq, Repr

/-- Observed result of the lightkube `client.get(Service, ...)` call in
`PFCPService.is_created`: the service was found, or the call raised
`HTTPStatusError` with the given status code. -/
inductive SvcGet
  | found
  | httpStatusError (code : Nat)
deriving DecidableEq, Repr

/-- Observed result of a lightkube `client.get` call that the code guards
with `except ApiError`: success with the object, or an `ApiError` whose
`status.reason` is the given string. -/
inductive K8sGet (α : Type)
  | ok (a : α)
  | apiError (reason : String)
deriving DecidableEq, Repr

/-- A mutating call issued by one reconciliation pass. Read-only calls
(gets, `ip route show`, pulls) are not part of the trace. -/
inductive Op
  | pfcpApply
  | multusPatch
  | stsReplace (s : StatefulSetSpec)
  | execCmd (cmd : String)
  | filePush (content : String)
  | pebbleAddLayer
  | pebbleReplan
  | pebbleRestart
  | publishN4 (relId : Nat)
deriving DecidableEq, Repr

/-- Source: `PFCPService.is_created` (src/kubernetes_eupf.py lines 53-65).
Returns True when the get succeeds; any `HTTPStatusError` (404 or other)
falls through to `return False`. -/
def pfcp_is_created : SvcGet → Bool
  | .found => true
  | .httpStatusError _ => false

/-- Source: `PFCPService.create` issues `client.apply` (line 89).
`applyOk = false` models the apply call raising (uncaught). -/
def pfcp_create (applyOk : Bool) : List Op × Option String :=
  ([Op.pfcpApply], if applyOk then none else some "ApiError in client.apply")

/-- Source: `_configure_pfcp_service` (src/charm.py lines 201-203):
create only when `is_created()` is false. -/
def configure_pfcp_service (g : SvcGet) (applyOk : Bool) : List Op × Option String :=
  if pfcp_is_created g then ([], none) else pfcp_create applyOk

/-- The charm's workload container name (`self._container_name = "eupf"`). -/
def container_name : String := "eupf"

/-- Requested eBPF volume mount (src/kubernetes_eupf.py lines 114-117). -/
def requested_volumemount : VolumeMount := ⟨"ebpf", "/sys/fs/bpf"⟩

/-- Requested eBPF host-path volume (src/kubernetes_eupf.py lines 118-124). -/
def requested_volume : Volume := ⟨"ebpf", "/sys/fs/bpf"⟩

/-- Source: `EBPFVolume._get_container` (lines 181-186): first container
with the given name, `RuntimeError` when none matches. -/
def get_container (name : String) (cs : List Container) : Except String Container :=
  match cs.find? (fun c => c.name = name) with
  | some c => .ok c
  | none => .error "Container not found"

/-- Source: `EBPFVolume._pod_contains_requested_volumemount` (lines 188-197). -/
def pod_contains_requested_volumemount (cs : List Container) (name : String)
    (vm : VolumeMount) : Except String Bool := do
  let c ← get_container name cs
  match c.volumeMounts with
  | none => pure false
  | some ms => pure (vm ∈ ms)

/-- Source: `EBPFVolume._pod_is_patched` (lines 130-146): an `ApiError`
with reason `Unauthorized` yields False; any other `ApiError` raises
`RuntimeError`; otherwise the volume-mount check runs on the pod. -/
def pod_is_patched : K8sGet Pod → Except String Bool
  | .apiError r =>
      if r = "Unauthorized" then .ok false else .error "Pod not found"
  | .ok pod => pod_contains_requested_volumemount pod.containers container_name
      requested_volumemount

/-- Source: `EBPFVolume._statefulset_contains_requested_volume`
(lines 168-179): falsy template spec or falsy volumes give False,
otherwise membership. -/
def statefulset_contains_requested_volume (spec : StatefulSetSpec)
    (v : Volume) : Bool :=
  match spec.templateSpec with
  | none => false
  | some ps =>
    match ps.volumes with
    | none => false
    | some vs => v ∈ vs

/-- Source: `EBPFVolume._statefulset_is_patched` (lines 148-166). -/
def ebpf_statefulset_is_patched : K8sGet StatefulSetSpec → Except String Bool
  | .apiError r =>
      if r = "Unauthorized" then .ok false
      else .error "Could not get statefulset"
  | .ok spec => .ok (statefulset_contains_requested_volume spec requested_volume)

/-- Source: `EBPFVolume.is_created` (lines 126-128):
`self._pod_is_patched() and self._statefulset_is_patched()`,
with Python short-circuit `and`. -/
def ebpf_is_created (pg : K8sGet Pod) (sg : K8sGet StatefulSetSpec) :
    Except String Bool := do
  let p ← pod_is_patched pg
  if p then ebpf_statefulset_is_patched sg else pure false

/-- Replace the first element satisfying `p` by `f` of it, modelling the
in-place mutation of the container object returned by `_get_container`. -/
def updateFirst {α : Type} (p : α → Bool) (f : α → α) : List α → List α
  | [] => []
  | x :: xs => if p x then f x :: xs else x :: updateFirst p f xs

/-- Source: the statefulset transformation inside `EBPFVolume.create`
(lines 208-217): append the requested mount to the named container's
volume mounts and the requested volume to the template's volumes. -/
def ebpf_create_spec (spec : StatefulSetSpec) : Except String StatefulSetSpec :=
  match spec.templateSpec with
  | none => .error "AttributeError"
  | some ps => do
    let _ ← get_container container_name ps.containers
    let cs := updateFirst (fun c => c.name = container_name)
      (fun c => { c with volumeMounts := some (c.volumeMounts.getD [] ++ [requested_volumemount]) })
      ps.containers
    let vs := ps.volumes.getD [] ++ [requested_volume]
    pure ⟨some ⟨cs, some vs⟩⟩

/-- Source: `EBPFVolume.create` (lines 199-222): get the statefulset
(any `ApiError` raises `RuntimeError`), transform it, then issue a full
`client.replace` of it (`replaceOk = false` models the replace raising,
re-raised as `RuntimeError`). -/
def ebpf_create_step (sg : K8sGet StatefulSetSpec) (replaceOk : Bool) :
    List Op × Option String :=
  match sg with
  | .apiError _ => ([], some "Could not get statefulset")
  | .ok spec =>
    match ebpf_create_spec spec with
    | .error e => ([], some e)
    | .ok s' =>
      ([Op.stsReplace s'],
        if replaceOk then none else some "Could not replace statefulset")

/-- Source: `_configure_ebpf_volume` (src/charm.py lines 205-207):
create only when `is_created()` is false; an exception from `is_created`
or `create` propagates. -/
def configure_ebpf_volume (pg : K8sGet Pod) (sg : K8sGet StatefulSetSpec)
    (replaceOk : Bool) : List Op × Option String :=
  match ebpf_is_created pg sg with
  | .error e => ([], some e)
  | .ok true => ([], none)
  | .ok false => ebpf_create_step sg replaceOk

/-- Source: `KubernetesClient._container_security_context_is_set`
(multus.py lines 158-177): every container whose name matches must have a
security context with a non-empty capability `add` list containing
`NET_ADMIN` when requested and `privileged` set when requested; when no
container matches, the loop falls through to `return True`. -/
def container_security_context_is_set (containers : List Container)
    (name : String) (capNetAdmin privileged : Bool) : Bool :=
  containers.all (fun c =>
    if c.name = name then
      match c.securityContext with
      | none => false
      | some sc =>
        match sc.capabilities with
        | none => false
        | some caps =>
          if caps.add.isEmpty then false
          else if capNetAdmin && !(caps.add.contains "NET_ADMIN") then false
          else if privileged && !(sc.privileged.getD false) then false
          else true
    else true)

/-- Source: `KubernetesClient.statefulset_is_patched` (multus.py lines
120-140): `Unauthorized` gives False, any other `ApiError` raises
`KubernetesMultusError`; otherwise `_pod_is_patched` runs on
`statefulset.spec.template` (a `None` template spec would raise
`AttributeError` at `pod.spec.containers`). -/
def multus_statefulset_is_patched (g : K8sGet StatefulSetSpec)
    (name : String) (capNetAdmin privileged : Bool) : Except String Bool :=
  match g with
  | .apiError r =>
      if r = "Unauthorized" then .ok false
      else .error "Could not get statefulset"
  | .ok spec =>
    match spec.templateSpec with
    | none => .error "AttributeError"
    | some ps =>
      .ok (container_security_context_is_set ps.containers name capNetAdmin privileged)

/-- Source: `KubernetesClient.patch_statefulset` (multus.py lines 74-117):
get the statefulset (any `ApiError` raises), then issue `client.patch`
with `PatchType.APPLY` (`patchOk = false` models the patch raising). -/
def patch_statefulset (g : K8sGet StatefulSetSpec) (patchOk : Bool) :
    List Op × Option String :=
  match g with
  | .apiError _ => ([], some "Could not get statefulset")
  | .ok _ =>
    ([Op.multusPatch], if patchOk then none else some "Could not patch statefulset")

/-- Source: `KubernetesMultusCharmLib._configure_multus` (multus.py lines
198-205), invoked from `_configure` as `self._kubernetes_multus.configure()`:
patch the statefulset only when it is not already patched. The charm
instantiates the lib with `cap_net_admin=True, privileged=True`. -/
def multus_configure (g : K8sGet StatefulSetSpec) (name : String)
    (patchOk : Bool) : List Op × Option String :=
  match multus_statefulset_is_patched g name true true with
  | .error e => ([], some e)
  | .ok true => ([], none)
  | .ok false => patch_statefulset g patchOk

/-- List prefix test written out for substring matching. -/
def isPrefixList {α : Type} [DecidableEq α] : List α → List α → Bool
  | [], _ => true
  | _ :: _, [] => false
  | a :: as, b :: bs => a = b && isPrefixList as bs

/-- List infix test, modelling Python's `in` on strings. -/
def isInfixList {α : Type} [DecidableEq α] (pat : List α) : List α → Bool
  | [] => isPrefixList pat []
  | b :: bs => isPrefixList pat (b :: bs) || isInfixList pat bs

/-- Source: `_route_exists` (src/charm.py lines 228-238): an `ExecError`
from `ip route show` gives False (`routeShow = none`); otherwise True iff
some stdout line contains the substring "dst via via". -/
def route_exists (dst via : String) (routeShow : Option (List String)) : Bool :=
  match routeShow with
  | none => false
  | some lines =>
    lines.any (fun l => isInfixList (dst ++ " via " ++ via).toList l.toList)

/-- Configuration values the reconciliation pass reads
(`self._charm_config.*` accesses in src/charm.py), rendered to the strings
the code uses (`str(...)` of the ip/network values). -/
structure CharmCfg where
  interfaces : String
  loggingLevel : String
  n3Ip : String
  xdpAttachMode : String
  n6GatewayIp : String
  gnbSubnet : String
  n3GatewayIp : String
deriving DecidableEq, Repr

/-- Source: the `ip route replace` command built in `_create_default_route`
(src/charm.py line 244). -/
def default_route_cmd (cfg : CharmCfg) : String :=
  "ip route replace default via " ++ cfg.n6GatewayIp ++ " metric 110"

/-- Source: the `ip route replace` command built in `_create_ran_route`
(src/charm.py line 255). -/
def ran_route_cmd (cfg : CharmCfg) : String :=
  "ip route replace " ++ cfg.gnbSubnet ++ " via " ++ cfg.n3GatewayIp

/-- Source: `_configure_routes` (src/charm.py lines 209-219): each route
is created only when `_route_exists` is false for it; `ExecError` from the
replace commands is caught and only logged. -/
def configure_routes (cfg : CharmCfg) (routeShow : Option (List String)) :
    List Op :=
  (if !(route_exists "default" cfg.n6GatewayIp routeShow) then
    [Op.execCmd (default_route_cmd cfg)] else []) ++
  (if !(route_exists cfg.gnbSubnet cfg.n3GatewayIp routeShow) then
    [Op.execCmd (ran_route_cmd cfg)] else [])

/-- Source: the sysctl command issued unconditionally by
`_enable_ip_forwarding` (src/charm.py line 222). -/
def ip_forward_cmd : String := "sysctl -w net.ipv4.ip_forward=1"

/-- Source: `_enable_ip_forwarding` (src/charm.py lines 221-226): the exec
is always issued; a non-empty stderr is only logged. -/
def enable_ip_forwarding : List Op := [Op.execCmd ip_forward_cmd]

/-- Source: `_upf_config_file_is_written` (src/charm.py lines 278-284):
False when the container is not connectable (also on `ConnectionError`
from `exists`), else whether the config file exists. -/
def upf_config_file_is_written (conn : Bool) (file : Option String) : Bool :=
  conn && file.isSome

/-- Source: `_upf_config_file_content_matches` (src/charm.py lines
286-294): `ConnectionError` on pull gives False; pulling a missing file
raises (uncaught `PathError`); otherwise the parsed YAML values are
compared, with a `YAMLError` from either parse giving False. The external
`yaml.safe_load` collaborator is the `parse` parameter (`none` models a
raised `YAMLError`). -/
def upf_config_file_content_matches {Y : Type} [DecidableEq Y]
    (parse : String → Option Y) (conn : Bool) (file : Option String)
    (content : String) : Except String Bool :=
  if !conn then .ok false
  else
    match file with
    | none => .error "PathError"
    | some existing =>
      match parse existing, parse content with
      | some a, some b => .ok (decide (a = b))
      | _, _ => .ok false

/-- Source: `_write_upf_config_file` (src/charm.py lines 296-301): the
push call is issued; on `ConnectionError` it is caught and logged and the
file is unchanged. Returns the new file state and the issued call. -/
def write_upf_config_file (conn : Bool) (file : Option String)
    (content : String) : Option String × List Op :=
  (if conn then some content else file, [Op.filePush content])

/-- Result of `_generate_config_file`: its boolean return value, the new
file state, the mutating calls issued, and an uncaught exception if any. -/
structure GenOut where
  restart : Bool
  file : Option String
  ops : List Op
  err : Option String
deriving DecidableEq, Repr

/-- Source: `_generate_config_file` (src/charm.py lines 303-324) given the
already-rendered content: write and return True when the file is not
written or its content does not match; otherwise return False. -/
def generate_config_file {Y : Type} [DecidableEq Y]
    (parse : String → Option Y) (conn : Bool) (file : Option String)
    (content : String) : GenOut :=
  if !(upf_config_file_is_written conn file) then
    let w := write_upf_config_file conn file content
    ⟨true, w.1, w.2, none⟩
  else
    match upf_config_file_content_matches parse conn file content with
    | .error e => ⟨false, file, [], some e⟩
    | .ok true => ⟨false, file, [], none⟩
    | .ok false =>
      let w := write_upf_config_file conn file content
      ⟨true, w.1, w.2, none⟩

/-- One pebble service entry, as compared by `plan.services != layer.services`. -/
structure PebbleService where
  override : String
  startup : String
  command : String
deriving DecidableEq, Repr

/-- Source: `_pebble_layer` (src/charm.py lines 382-395): the constant
services map of the layer. -/
def pebble_layer_services : List (String × PebbleService) :=
  [("eupf", ⟨"replace", "enabled", "/bin/eupf --config /etc/eupf/config.yaml"⟩)]

/-- Source: `_configure_pebble` (src/charm.py lines 351-380): on
connection failure nothing happens; when the plan's services differ from
the layer's, the layer is added and replanned; the workload is restarted
iff `restart` is true. -/
def configure_pebble (conn : Bool) (planServices : List (String × PebbleService))
    (restart : Bool) : List Op :=
  if !conn then []
  else
    (if planServices ≠ pebble_layer_services then
      [Op.pebbleAddLayer, Op.pebbleReplan] else []) ++
    (if restart then [Op.pebbleRestart] else [])

/-- Source: `_update_fiveg_n4_relation_data` (src/charm.py lines 326-336):
publish UPF N4 information on every `fiveg_n4` relation, every pass. -/
def update_fiveg_n4_relation_data (relations : List Nat) : List Op :=
  relations.map Op.publishN4

/-- Modelled from the spec: the template `src/templates/config.yaml.j2` is
not under src/, so the spec's "templating/render step producing the
configuration file content" (external interfaces section) is modelled as
serializing every parameter that `render_upf_config_file`
(src/charm.py lines 49-80) passes to `template.render`, including
`pfcp_address`, into the content. -/
def render_upf_config_file (interfaces logging_level pfcp_address : String)
    (pfcp_port : Nat) (n3_address : String) (metrics_port : Nat)
    (xdp_attach_mode : String) : String :=
  "interfaces: " ++ interfaces ++
  "\nlogging_level: " ++ logging_level ++
  "\npfcp_address: " ++ pfcp_address ++ ":" ++ toString pfcp_port ++
  "\nn3_address: " ++ n3_address ++
  "\nmetrics_port: " ++ toString metrics_port ++
  "\nxdp_attach_mode: " ++ xdp_attach_mode

/-- PFCP port constant (src/charm.py line 38). -/
def pfcp_port : Nat := 8805

/-- Prometheus port constant (src/charm.py line 39). -/
def prometheus_port : Nat := 9090

/-- Source: the content computed inside `_generate_config_file`
(src/charm.py lines 309-318): rendered from the charm configuration and
`pfcp_address = get_pod_ip()`, the pod IP observed via the juju client. -/
def desired_content (cfg : CharmCfg) (podIP : String) : String :=
  render_upf_config_file cfg.interfaces cfg.loggingLevel podIP pfcp_port
    cfg.n3Ip prometheus_port cfg.xdpAttachMode

/-- All external observations of one reconciliation pass of `_configure`,
together with success flags for the mutating calls it may issue. -/
structure World where
  configOk : Bool
  isLeader : Bool
  canConnect : Bool
  pfcpGet : SvcGet
  pfcpApplyOk : Bool
  multusAvailable : Bool
  multusGet : K8sGet StatefulSetSpec
  multusPatchOk : Bool
  podGet : K8sGet Pod
  stsGet : K8sGet StatefulSetSpec
  stsReplaceOk : Bool
  routeShow : Option (List String)
  file : Option String
  podIP : String
  planServices : List (String × PebbleService)
  relations : List Nat
  config : CharmCfg

/-- Sequence two pass fragments: an uncaught exception in the first
aborts the pass, keeping the calls already issued. -/
def andT (a : List Op × Option String) (k : Unit → List Op × Option String) :
    List Op × Option String :=
  match a with
  | (ops, some e) => (ops, some e)
  | (ops, none) => ((ops ++ (k ()).1), (k ()).2)

/-- Source: `_configure` (src/charm.py lines 160-182): the whole
reconciliation pass. Early returns on invalid config, non-leader, or
unconnectable container; then PFCP service, Multus availability gate,
Multus configure, eBPF volume, routes, ip forwarding, config file
generation, pebble (restarting iff the file was written), and N4 relation
data. The trace is the list of mutating calls issued, in order; the
second component is the uncaught exception aborting the pass, if any.
The charm's application name is fixed to "eupf" in the model. -/
def configure {Y : Type} [DecidableEq Y] (parse : String → Option Y)
    (w : World) : List Op × Option String :=
  if !w.configOk then ([], none)
  else if !w.isLeader then ([], none)
  else if !w.canConnect then ([], none)
  else
    andT (configure_pfcp_service w.pfcpGet w.pfcpApplyOk) fun _ =>
    if !w.multusAvailable then ([], none)
    else
      andT (multus_configure w.multusGet "eupf" w.multusPatchOk) fun _ =>
      andT (configure_ebpf_volume w.podGet w.stsGet w.stsReplaceOk) fun _ =>
      andT (configure_routes w.config w.routeShow ++ enable_ip_forwarding, none) fun _ =>
      let g := generate_config_file parse w.canConnect w.file
        (desired_content w.config w.podIP)
      andT (g.ops, g.err) fun _ =>
      (configure_pebble w.canConnect w.planServices g.restart ++
        update_fiveg_n4_relation_data w.relations, none)

/-- Unit status as added by `event.add_status`. -/
inductive Status
  | blocked (msg : String)
  | waiting (msg : String)
  | active
deriving DecidableEq, Repr

/-- Source: `_eupf_service_is_running` (src/charm.py lines 272-276):
`ModelError` from `get_service` gives False (`none`), otherwise
`is_running()`. -/
def eupf_service_is_running : Option Bool → Bool
  | none => false
  | some b => b

/-- The observations `_on_collect_status` reads: leadership, the config
validation outcome (`some msg` is a `CharmConfigInvalidError`), the two
Multus predicates, container connectivity, the config file, and the
workload service state. -/
structure StatusInputs where
  isLeader : Bool
  configError : Option String
  multusAvailable : Bool
  multusReady : Bool
  canConnect : Bool
  file : Option String
  serviceRunning : Option Bool

/-- Source: `_on_collect_status` (src/charm.py lines 133-158), as the
single status it adds before returning. -/
def on_collect_status (i : StatusInputs) : Status :=
  if !i.isLeader then .blocked "Scaling is not implemented for this charm"
  else
    match i.configError with
    | some msg => .blocked msg
    | none =>
      if !i.multusAvailable then .blocked "Multus is not installed or enabled"
      else if !i.multusReady then .waiting "Waiting for Multus to be ready"
      else if !(upf_config_file_is_written i.canConnect i.file) then
        .waiting "Waiting for UPF configuration file"
      else if !(eupf_service_is_running i.serviceRunning) then
        .waiting "Waiting for UPF service to start"
      else .active

/-- Written from the spec's words for comparison: the fixed precedence
order of blocking conditions claimed for status collection, as an ordered
list of (check passes, status reported when it fails). -/
def spec_status_checks (i : StatusInputs) : List (Bool × Status) :=
  [ (i.isLeader, .blocked "Scaling is not implemented for this charm"),
    (i.configError.isNone, .blocked (i.configError.getD "")),
    (i.multusAvailable, .blocked "Multus is not installed or enabled"),
    (i.multusReady, .waiting "Waiting for Multus to be ready"),
    (upf_config_file_is_written i.canConnect i.file,
      .waiting "Waiting for UPF configuration file"),
    (eupf_service_is_running i.serviceRunning,
      .waiting "Waiting for UPF service to start") ]

/-- Written from the spec's words for comparison: report the status of the
first failing check, `active` when every check passes. -/
def first_failing : List (Bool × Status) → Status
  | [] => .active
  | (ok, s) :: rest => if ok then first_failing rest else s

/-- Concrete stand-in instantiation of the external `yaml.safe_load`
collaborator for witnesses: YAML parsing treats some whitespace as
insignificant (`safe_load "a: 1"` equals `safe_load "a: 1 "`) and raises
`YAMLError` on malformed input such as a lone bracket. -/
def yamlStub (s : String) : Option (List Char) :=
  if s = "]" then none else some (s.data.filter (fun ch => ch != ' '))

/-- Concrete total parse instantiation (every document parses to itself). -/
def textParse : String → Option String := fun s => some s

/-- A security context satisfying the Multus patched check with
`cap_net_admin=True, privileged=True`. -/
def sc_patched : SecurityContext := ⟨some ⟨["NET_ADMIN"]⟩, some true⟩

/-- The workload container in fully patched state. -/
def eupf_container_patched : Container :=
  ⟨"eupf", some [requested_volumemount], some sc_patched⟩

/-- A statefulset spec in fully patched state. -/
def sts_patched : StatefulSetSpec :=
  ⟨some ⟨[eupf_container_patched], some [requested_volume]⟩⟩

/-- The unit's pod in fully patched state. -/
def pod_patched : Pod := ⟨[eupf_container_patched]⟩

/-- A concrete charm configuration. -/
def cfg0 : CharmCfg :=
  ⟨"[n3, n6]", "info", "192.168.252.3/24", "generic",
   "192.168.250.1", "192.168.251.0/24", "192.168.252.1"⟩

/-- Observed `ip route show` lines containing both desired routes. -/
def routes_present : List String :=
  ["default via 192.168.250.1 dev eth0 metric 110",
   "192.168.251.0/24 via 192.168.252.1 dev n3"]

/-- A world already in the desired state for every managed resource. -/
def desired_world : World :=
  { configOk := true, isLeader := true, canConnect := true,
    pfcpGet := .found, pfcpApplyOk := true,
    multusAvailable := true, multusGet := .ok sts_patched, multusPatchOk := true,
    podGet := .ok pod_patched, stsGet := .ok sts_patched, stsReplaceOk := true,
    routeShow := some routes_present,
    file := some (desired_content cfg0 "1.1.1.1"),
    podIP := "1.1.1.1",
    planServices := pebble_layer_services,
    relations := [],
    config := cfg0 }

/-- A world where the kube-apiserver answers `Unauthorized` to the eBPF
volume's pod and statefulset gets. -/
def unauthorized_world : World :=
  { desired_world with
    podGet := .apiError "Unauthorized", stsGet := .apiError "Unauthorized" }

/-- The workload container before the eBPF mount is added (the Multus
security context is already set). -/
def eupf_container_plain : Container := ⟨"eupf", none, some sc_patched⟩

/-- An unrelated container of the same statefulset, with its own mount. -/
def other_container : Container := ⟨"other", some [⟨"data", "/data"⟩], none⟩

/-- An unrelated pre-existing volume of the statefulset. -/
def other_volume : Volume := ⟨"othervol", "/srv"⟩

/-- A statefulset spec not yet carrying the eBPF volume, with an
unrelated second container and volume. -/
def sts_unpatched : StatefulSetSpec :=
  ⟨some ⟨[eupf_container_plain, other_container], some [other_volume]⟩⟩

/-- The pod matching `sts_unpatched`. -/
def pod_unpatched : Pod := ⟨[eupf_container_plain, other_container]⟩

/-- The statefulset spec that `EBPFVolume.create` sends to
`client.replace` when starting from `sts_unpatched`. -/
def ebpf_result_spec : StatefulSetSpec :=
  ⟨some ⟨[⟨"eupf", some [requested_volumemount], some sc_patched⟩, other_container],
    some [other_volume, requested_volume]⟩⟩

/-- A world in which the eBPF volume must be created but the replace call
fails, while routes, config file, pebble and one N4 relation still need
work later in the same pass. -/
def replace_fail_world : World :=
  { desired_world with
    podGet := .ok pod_unpatched, stsGet := .ok sts_unpatched,
    stsReplaceOk := false,
    routeShow := some [], file := none, relations := [1] }

/-- A world identical to `desired_world` except that the config file is
absent and the observed pod IP is the given one. -/
def podip_world (ip : String) : World :=
  { desired_world with file := none, podIP := ip }

theorem andT_none {a : List Op × Option String} {k : Unit → List Op × Option String}
    (h : a.2 = none) : andT a k = (a.1 ++ (k ()).1, (k ()).2) := by
  rcases a with ⟨ops, e⟩
  cases e with
  | none => rfl
  | some e => simp at h

theorem andT_some {a : List Op × Option String} {k : Unit → List Op × Option String}
    {e : String} (h : a.2 = some e) : andT a k = a := by
  rcases a with ⟨ops, e'⟩
  cases e' with
  | none => simp at h
  | some e' => rfl

theorem mem_andT {x : Op} {a : List Op × Option String}
    {k : Unit → List Op × Option String}
    (h : x ∈ (andT a k).1) : x ∈ a.1 ∨ x ∈ (k ()).1 := by
  rcases a with ⟨ops, e⟩
  cases e with
  | none => exact List.mem_append.mp h
  | some e => exact Or.inl h

theorem configure_pfcp_service_ops (g : SvcGet) (ok : Bool) :
    (configure_pfcp_service g ok).1 =
      if pfcp_is_created g then [] else [Op.pfcpApply] := by
  unfold configure_pfcp_service pfcp_create
  split <;> rfl

theorem multus_configure_ops (g : K8sGet StatefulSetSpec) (n : String) (ok : Bool) :
    (multus_configure g n ok).1 = [] ∨
    (multus_configure g n ok).1 = [Op.multusPatch] := by
  unfold multus_configure patch_statefulset
  rcases multus_statefulset_is_patched g n true true with e | b
  · exact Or.inl rfl
  · cases b
    · cases g
      · exact Or.inr rfl
      · exact Or.inl rfl
    · exact Or.inl rfl

theorem configure_ebpf_volume_ops (pg : K8sGet Pod) (sg : K8sGet StatefulSetSpec)
    (ok : Bool) :
    (configure_ebpf_volume pg sg ok).1 = [] ∨
    ∃ s, (configure_ebpf_volume pg sg ok).1 = [Op.stsReplace s] := by
  unfold configure_ebpf_volume ebpf_create_step
  cases hc : ebpf_is_created pg sg with
  | error e => exact Or.inl rfl
  | ok b =>
    cases b
    · cases sg with
      | apiError r => exact Or.inl rfl
      | ok spec =>
        cases hs : ebpf_create_spec spec with
        | error e => simp [hs]
        | ok s' => simp [hs]
    · exact Or.inl rfl

theorem configure_routes_ops (cfg : CharmCfg) (rs : Option (List String)) :
    ∀ x ∈ configure_routes cfg rs, ∃ c, x = Op.execCmd c := by
  intro x hx
  unfold configure_routes at hx
  rcases List.mem_append.mp hx with h | h <;>
    · revert h
      split
      · intro h
        simp at h
        exact ⟨_, h⟩
      · intro h
        simp at h

theorem generate_config_file_ops {Y : Type} [DecidableEq Y]
    (parse : String → Option Y) (conn : Bool) (file : Option String)
    (content : String) :
    (generate_config_file parse conn file content).ops = [] ∨
    (generate_config_file parse conn file content).ops = [Op.filePush content] := by
  unfold generate_config_file write_upf_config_file
  split
  · exact Or.inr rfl
  · rcases upf_config_file_content_matches parse conn file content with e | b
    · exact Or.inl rfl
    · cases b
      · exact Or.inr rfl
      · exact Or.inl rfl

theorem configure_pebble_ops (conn : Bool) (plan : List (String × PebbleService))
    (r : Bool) :
    ∀ x ∈ configure_pebble conn plan r,
      x = Op.pebbleAddLayer ∨ x = Op.pebbleReplan ∨ x = Op.pebbleRestart := by
  intro x hx
  unfold configure_pebble at hx
  split at hx
  · simp at hx
  · rcases List.mem_append.mp hx with h | h <;>
      · revert h
        split
        · intro h
          simp at h
          tauto
        · intro h
          simp at h

theorem update_fiveg_n4_ops (rels : List Nat) :
    ∀ x ∈ update_fiveg_n4_relation_data rels, ∃ i, x = Op.publishN4 i := by
  intro x hx
  unfold update_fiveg_n4_relation_data at hx
  rcases List.mem_map.mp hx with ⟨i, _, rfl⟩
  exact ⟨i, rfl⟩

theorem mem_configure {Y : Type} [DecidableEq Y] (parse : String → Option Y)
    (w : World) (x : Op) (hx : x ∈ (configure parse w).1) :
    x ∈ (configure_pfcp_service w.pfcpGet w.pfcpApplyOk).1 ∨
    x ∈ (multus_configure w.multusGet "eupf" w.multusPatchOk).1 ∨
    x ∈ (configure_ebpf_volume w.podGet w.stsGet w.stsReplaceOk).1 ∨
    x ∈ configure_routes w.config w.routeShow ∨
    x ∈ enable_ip_forwarding ∨
    x ∈ (generate_config_file parse w.canConnect w.file
      (desired_content w.config w.podIP)).ops ∨
    x ∈ configure_pebble w.canConnect w.planServices
      (generate_config_file parse w.canConnect w.file
        (desired_content w.config w.podIP)).restart ∨
    x ∈ update_fiveg_n4_relation_data w.relations := by
  unfold configure at hx
  split at hx
  · simp at hx
  split at hx
  · simp at hx
  split at hx
  · simp at hx
  rcases mem_andT hx with h | h
  · exact Or.inl h
  revert h
  split
  · intro h
    simp at h
  intro h
  rcases mem_andT h with h | h
  · exact Or.inr (Or.inl h)
  rcases mem_andT h with h | h
  · exact Or.inr (Or.inr (Or.inl h))
  rcases mem_andT h with h | h
  · rcases List.mem_append.mp h with h | h
    · exact Or.inr (Or.inr (Or.inr (Or.inl h)))
    · exact Or.inr (Or.inr (Or.inr (Or.inr (Or.inl h))))
  rcases mem_andT h with h | h
  · exact Or.inr (Or.inr (Or.inr (Or.inr (Or.inr (Or.inl h)))))
  rcases List.mem_append.mp h with h | h
  · exact Or.inr (Or.inr (Or.inr (Or.inr (Or.inr (Or.inr (Or.inl h))))))
  · exact Or.inr (Or.inr (Or.inr (Or.inr (Or.inr (Or.inr (Or.inr h))))))

theorem find?_append_of_none {α : Type} (p : α → Bool) (l₁ l₂ : List α) (c : α)
    (h : ∀ y ∈ l₁, p y = false) (hc : p c = true) :
    (l₁ ++ c :: l₂).find? p = some c := by
  induction l₁ with
  | nil => simpa using List.find?_cons_of_pos l₂ hc
  | cons a as ih =>
    have ha : ¬ p a = true := by simp [h a (by simp)]
    rw [List.cons_append, List.find?_cons_of_neg _ ha]
    exact ih (fun y hy => h y (by simp [hy]))

theorem updateFirst_append_of_none {α : Type} (p : α → Bool) (f : α → α)
    (l₁ l₂ : List α) (c : α) (h : ∀ y ∈ l₁, p y = false) (hc : p c = true) :
    updateFirst p f (l₁ ++ c :: l₂) = l₁ ++ f c :: l₂ := by
  induction l₁ with
  | nil => simp [updateFirst, hc]
  | cons a as ih =>
    have ha : ¬ p a = true := by simp [h a (by simp)]
    rw [List.cons_append, updateFirst, if_neg ha,
      ih (fun y hy => h y (by simp [hy])), List.cons_append]

/-- C2 (confirmed). Status collection checks the blocking conditions in the
fixed precedence order leadership, configuration validity, Multus
availability, Multus readiness, config-file presence, workload service
health — `_on_collect_status` reports exactly the status of the first
failing check of that ordered list — and it adds `ActiveStatus` if and
only if every one of these checks passes. -/
theorem c2_status_precedence (i : StatusInputs) :
    on_collect_status i = first_failing (spec_status_checks i) ∧
    (on_collect_status i = .active ↔
      (i.isLeader = true ∧ i.configError = none ∧ i.multusAvailable = true ∧
       i.multusReady = true ∧
       upf_config_file_is_written i.canConnect i.file = true ∧
       eupf_service_is_running i.serviceRunning = true)) := by
  obtain ⟨l, ce, ma, mr, cc, f, sr⟩ := i
  cases ce <;> cases l <;> cases ma <;> cases mr <;>
    cases hw : upf_config_file_is_written cc f <;>
    cases hr : eupf_service_is_running sr <;>
    simp [on_collect_status, first_failing, spec_status_checks, hw, hr]

/-- C4, counterexample. The claim says `EBPFVolume.is_created` returns
False rather than raising when the pod is not found; but a not-found
`ApiError` (reason other than `Unauthorized`) makes `_pod_is_patched`
raise `RuntimeError` (src/kubernetes_eupf.py line 137), which propagates
out of `is_created`: the result is an error, not `False`. -/
theorem c4_counterexample :
    pod_is_patched (.apiError "NotFound") = .error "Pod not found" ∧
    ebpf_is_created (.apiError "NotFound") (.ok sts_patched) =
      .error "Pod not found" := ⟨rfl, rfl⟩

/-- C4, amended. `PFCPService.is_created` returns False on any
`HTTPStatusError` (404 included) without raising; the eBPF volume's pod
and statefulset checks return False without raising only when the
`ApiError` reason is `Unauthorized` (kube-apiserver not ready): an
`ApiError` with any other reason, not-found included, raises
`RuntimeError` instead of being normalized to Absent. -/
theorem c4_amended (code : Nat) (r : String) (sg : K8sGet StatefulSetSpec)
    (h : r ≠ "Unauthorized") :
    pfcp_is_created (.httpStatusError code) = false ∧
    pod_is_patched (.apiError "Unauthorized") = .ok false ∧
    ebpf_statefulset_is_patched (.apiError "Unauthorized") = .ok false ∧
    ebpf_is_created (.apiError "Unauthorized") sg = .ok false ∧
    pod_is_patched (.apiError r) = .error "Pod not found" ∧
    ebpf_statefulset_is_patched (.apiError r) =
      .error "Could not get statefulset" := by
  refine ⟨rfl, rfl, rfl, rfl, ?_, ?_⟩
  · simp [pod_is_patched, h]
  · simp [ebpf_statefulset_is_patched, h]

theorem c4_amended_witness :
    pfcp_is_created (.httpStatusError 404) = false ∧
    pod_is_patched (.apiError "Unauthorized") = .ok false ∧
    ebpf_statefulset_is_patched (.apiError "Unauthorized") = .ok false ∧
    ebpf_is_created (.apiError "Unauthorized") (.apiError "Unauthorized") = .ok false ∧
    pod_is_patched (.apiError "NotFound2") = .error "Pod not found" ∧
    ebpf_statefulset_is_patched (.apiError "NotFound2") =
      .error "Could not get statefulset" :=
  c4_amended 404 "NotFound2" (.apiError "Unauthorized") (by decide)

/-- C9 (confirmed). When no container in the list has the given name,
`_container_security_context_is_set` falls through its loop and returns
True, so `statefulset_is_patched` reports the statefulset as already
patched and `_configure_multus` issues no patch, even though the target
container is entirely absent from the pod template. -/
theorem c9_absent_container (cs : List Container) (n : String) (a p : Bool)
    (vols : Option (List Volume)) (patchOk : Bool)
    (h : ∀ c ∈ cs, c.name ≠ n) :
    container_security_context_is_set cs n a p = true ∧
    multus_statefulset_is_patched (.ok ⟨some ⟨cs, vols⟩⟩) n a p = .ok true ∧
    multus_configure (.ok ⟨some ⟨cs, vols⟩⟩) n patchOk = ([], none) := by
  have h1 : ∀ a' p' : Bool, container_security_context_is_set cs n a' p' = true := by
    intro a' p'
    unfold container_security_context_is_set
    rw [List.all_eq_true]
    intro c hc
    simp [h c hc]
  refine ⟨h1 a p, ?_, ?_⟩
  · simp [multus_statefulset_is_patched, h1 a p]
  · simp [multus_configure, multus_statefulset_is_patched, h1 true true]

theorem c9_absent_container_witness :
    container_security_context_is_set [other_container] "eupf" true true = true ∧
    multus_statefulset_is_patched (.ok ⟨some ⟨[other_container], some []⟩⟩)
      "eupf" true true = .ok true ∧
    multus_configure (.ok ⟨some ⟨[other_container], some []⟩⟩) "eupf" true =
      ([], none) :=
  c9_absent_container [other_container] "eupf" true true (some []) true (by decide)

/-- C10 (confirmed). Config-file content matching is YAML-semantic: when
both the existing and the desired content parse to the same YAML value,
`_upf_config_file_content_matches` returns True, `_generate_config_file`
does not rewrite the file, and the pebble restart is not invoked; and the
matcher returns False whenever the container connection fails or the
existing content does not parse as YAML. -/
theorem c10_semantic_match {Y : Type} [DecidableEq Y]
    (parse : String → Option Y) (e c : String) (v : Y) (f : Option String) :
    (parse e = some v → parse c = some v →
      upf_config_file_content_matches parse true (some e) c = .ok true ∧
      generate_config_file parse true (some e) c = ⟨false, some e, [], none⟩) ∧
    upf_config_file_content_matches parse false f c = .ok false ∧
    (parse e = none →
      upf_config_file_content_matches parse true (some e) c = .ok false) ∧
    (∀ conn plan, Op.pebbleRestart ∉ configure_pebble conn plan false) := by
  refine ⟨?_, rfl, ?_, ?_⟩
  · intro hpe hpc
    constructor
    · simp [upf_config_file_content_matches, hpe, hpc]
    · simp [generate_config_file, upf_config_file_is_written,
        upf_config_file_content_matches, hpe, hpc]
  · intro hpe
    cases hpc : parse c <;>
      simp [upf_config_file_content_matches, hpe, hpc]
  · intro conn plan hmem
    unfold configure_pebble at hmem
    split at hmem
    · simp at hmem
    · rcases List.mem_append.mp hmem with hm | hm
      · revert hm
        split
        · intro hm
          simp at hm
        · intro hm
          simp at hm
      · simp at hm

theorem c10_semantic_match_witness :
    upf_config_file_content_matches yamlStub true (some "a: 1 ") "a: 1" = .ok true ∧
    generate_config_file yamlStub true (some "a: 1 ") "a: 1" =
      ⟨false, some "a: 1 ", [], none⟩ ∧
    upf_config_file_content_matches yamlStub false none "a: 1" = .ok false ∧
    upf_config_file_content_matches yamlStub true (some "]") "a: 1" = .ok false ∧
    Op.pebbleRestart ∉ configure_pebble true [] false := by
  obtain ⟨p1, p2, _, p4⟩ :=
    c10_semantic_match yamlStub "a: 1 " "a: 1" ['a', ':', '1'] none
  obtain ⟨_, _, q3, _⟩ :=
    c10_semantic_match yamlStub "]" "a: 1" ['a', ':', '1'] none
  exact ⟨(p1 (by decide) (by decide)).1, (p1 (by decide) (by decide)).2, p2,
    q3 (by decide), p4 true []⟩

/-- C1, counterexample. A reconciliation pass on a world already in the
desired state for every managed resource still issues a mutating call:
`_enable_ip_forwarding` execs `sysctl -w net.ipv4.ip_forward=1` in the
workload unconditionally on every pass, so the trace is not empty,
refuting "issues zero mutating calls". -/
theorem c1_counterexample :
    configure textParse desired_world = ([Op.execCmd ip_forward_cmd], none) ∧
    ([Op.execCmd ip_forward_cmd] : List Op) ≠ [] := by
  exact ⟨rfl, by simp⟩

/-- C1, amended. For every configuration and every external state already
in the desired state, a reconciliation pass issues no create, patch,
replace, file write, pebble or restart call — `_configure_pfcp_service`
calls create only when `is_created()` is false, `_configure_ebpf_volume`
calls create only when `is_created()` is false, and
`_generate_config_file` returns False (no write) when the config file
exists and its content matches — but it still issues the unconditional
ip-forwarding sysctl exec and republishes the N4 relation data; and a
second pass after a successful first pass (the PFCP service now observed
as created) issues no apply call. -/
theorem c1_amended {Y : Type} [DecidableEq Y] (parse : String → Option Y)
    (w : World) (g : SvcGet) (applyOk : Bool) (pg : K8sGet Pod)
    (sg : K8sGet StatefulSetSpec) (rOk : Bool) (f : Option String) (c : String) :
    (pfcp_is_created g = true → configure_pfcp_service g applyOk = ([], none)) ∧
    (pfcp_is_created g = false →
      Op.pfcpApply ∈ (configure_pfcp_service g applyOk).1) ∧
    (ebpf_is_created pg sg = .ok true →
      configure_ebpf_volume pg sg rOk = ([], none)) ∧
    (upf_config_file_content_matches parse true f c = .ok true →
      generate_config_file parse true f c = ⟨false, f, [], none⟩) ∧
    (w.configOk = true → w.isLeader = true → w.canConnect = true →
      pfcp_is_created w.pfcpGet = true →
      w.multusAvailable = true →
      multus_statefulset_is_patched w.multusGet "eupf" true true = .ok true →
      ebpf_is_created w.podGet w.stsGet = .ok true →
      route_exists "default" w.config.n6GatewayIp w.routeShow = true →
      route_exists w.config.gnbSubnet w.config.n3GatewayIp w.routeShow = true →
      upf_config_file_content_matches parse true w.file
        (desired_content w.config w.podIP) = .ok true →
      w.planServices = pebble_layer_services →
      configure parse w =
        (Op.execCmd ip_forward_cmd :: update_fiveg_n4_relation_data w.relations,
          none)) ∧
    (w.pfcpGet = .found → Op.pfcpApply ∉ (configure parse w).1) := by
  refine ⟨?_, ?_, ?_, ?_, ?_, ?_⟩
  · intro h
    simp [configure_pfcp_service, h]
  · intro h
    simp [configure_pfcp_service, pfcp_create, h]
  · intro h
    simp only [configure_ebpf_volume, h]
  · intro h
    cases f with
    | none => simp [upf_config_file_content_matches] at h
    | some e =>
      simp [generate_config_file, upf_config_file_is_written, h]
  · intro h1 h2 h3 h4 h5 h6 h7 h8 h9 h10 h11
    have e1 : configure_pfcp_service w.pfcpGet w.pfcpApplyOk = ([], none) := by
      simp [configure_pfcp_service, h4]
    have e2 : multus_configure w.multusGet "eupf" w.multusPatchOk = ([], none) := by
      unfold multus_configure
      rw [h6]
    have e3 : configure_ebpf_volume w.podGet w.stsGet w.stsReplaceOk = ([], none) := by
      simp only [configure_ebpf_volume, h7]
    have e5 : generate_config_file parse true w.file
        (desired_content w.config w.podIP) = ⟨false, w.file, [], none⟩ := by
      cases hf : w.file with
      | none =>
        rw [hf] at h10
        simp [upf_config_file_content_matches] at h10
      | some e =>
        rw [hf] at h10
        simp [generate_config_file, upf_config_file_is_written, h10]
    unfold configure
    rw [h1, h2, h3, h5]
    simp only [e1, e2, e3, e5]
    simp [andT, configure_routes, h8, h9, configure_pebble, h3, h11,
      enable_ip_forwarding]
  · intro hfound hmem
    rcases mem_configure parse w _ hmem with h | h | h | h | h | h | h | h
    · rw [configure_pfcp_service_ops, hfound] at h
      simp [pfcp_is_created] at h
    · rcases multus_configure_ops w.multusGet "eupf" w.multusPatchOk with e | e <;>
        rw [e] at h <;> simp at h
    · rcases configure_ebpf_volume_ops w.podGet w.stsGet w.stsReplaceOk with
        e | ⟨s, e⟩ <;> rw [e] at h <;> simp at h
    · obtain ⟨cmd, hc⟩ := configure_routes_ops _ _ _ h
      simp at hc
    · simp [enable_ip_forwarding] at h
    · rcases generate_config_file_ops parse w.canConnect w.file
        (desired_content w.config w.podIP) with e | e <;>
        rw [e] at h <;> simp at h
    · rcases configure_pebble_ops _ _ _ _ h with e | e | e <;> simp at e
    · obtain ⟨i, hi⟩ := update_fiveg_n4_ops _ _ h
      simp at hi

theorem c1_amended_witness :
    configure_pfcp_service .found true = ([], none) ∧
    configure_ebpf_volume (.ok pod_patched) (.ok sts_patched) true = ([], none) ∧
    generate_config_file textParse true (some "a") "a" = ⟨false, some "a", [], none⟩ ∧
    configure textParse desired_world =
      (Op.execCmd ip_forward_cmd ::
        update_fiveg_n4_relation_data desired_world.relations, none) ∧
    Op.pfcpApply ∉ (configure textParse desired_world).1 := by
  obtain ⟨p1, _, p3, p4, p5, p6⟩ :=
    c1_amended textParse desired_world .found true (.ok pod_patched)
      (.ok sts_patched) true (some "a") "a"
  exact ⟨p1 rfl, p3 rfl, p4 rfl,
    p5 rfl rfl rfl rfl rfl rfl rfl (by decide) (by decide) rfl rfl,
    p6 rfl⟩

/-- C3, counterexample. The claim says a pass with desired content
`C2 != C1` always rewrites the file and returns True; but content
comparison is on parsed YAML values, so a textually different content
that parses to the same YAML value (here differing only in insignificant
whitespace under the `yamlStub` instantiation of `yaml.safe_load`) makes
`_generate_config_file` return False and write nothing. -/
theorem c3_counterexample :
    ("a: 1" : String) ≠ "a: 1 " ∧
    generate_config_file yamlStub true (some "a: 1") "a: 1 " =
      ⟨false, some "a: 1", [], none⟩ := by
  exact ⟨by decide, by decide⟩

/-- C3, amended. With no existing file, `_generate_config_file` writes
`C1` and returns True; a second pass with the same `C1` returns False
provided `C1` parses as YAML; a pass with content parsing to a different
YAML value rewrites the file and returns True; and `_configure_pebble`
invokes the container restart operation only on passes where
`_generate_config_file` returned True. -/
theorem c3_amended {Y : Type} [DecidableEq Y] (parse : String → Option Y)
    (c1 c2 : String) (v1 v2 : Y) :
    generate_config_file parse true none c1 =
      ⟨true, some c1, [Op.filePush c1], none⟩ ∧
    (parse c1 = some v1 →
      generate_config_file parse true (some c1) c1 = ⟨false, some c1, [], none⟩) ∧
    (parse c1 = some v1 → parse c2 = some v2 → v1 ≠ v2 →
      generate_config_file parse true (some c1) c2 =
        ⟨true, some c2, [Op.filePush c2], none⟩) ∧
    (∀ conn plan r, Op.pebbleRestart ∈ configure_pebble conn plan r → r = true) := by
  refine ⟨rfl, ?_, ?_, ?_⟩
  · intro h
    simp [generate_config_file, upf_config_file_is_written,
      upf_config_file_content_matches, h]
  · intro h1 h2 hne
    simp [generate_config_file, upf_config_file_is_written,
      upf_config_file_content_matches, write_upf_config_file, h1, h2, hne]
  · intro conn plan r hmem
    cases r with
    | true => rfl
    | false =>
      exfalso
      unfold configure_pebble at hmem
      split at hmem
      · simp at hmem
      · rcases List.mem_append.mp hmem with hm | hm
        · revert hm
          split
          · intro hm
            simp at hm
          · intro hm
            simp at hm
        · simp at hm

theorem c3_amended_witness :
    generate_config_file yamlStub true none "a: 1" =
      ⟨true, some "a: 1", [Op.filePush "a: 1"], none⟩ ∧
    generate_config_file yamlStub true (some "a: 1") "a: 1" =
      ⟨false, some "a: 1", [], none⟩ ∧
    generate_config_file yamlStub true (some "a: 1") "b: 2" =
      ⟨true, some "b: 2", [Op.filePush "b: 2"], none⟩ ∧
    (true : Bool) = true := by
  obtain ⟨p1, p2, p3, p4⟩ :=
    c3_amended yamlStub "a: 1" "b: 2" ['a', ':', '1'] ['b', ':', '2']
  exact ⟨p1, p2 (by decide), p3 (by decide) (by decide) (by decide),
    p4 true [] true (by decide)⟩

/-- C5, counterexample. The claim says that when `EBPFVolume.is_created`
returns False because the fetch hit the `Unauthorized` branch,
`_configure_ebpf_volume` does not call create. On the code, `is_created`
returns False (first conjunct), and `_configure_ebpf_volume` then does
call `create`, whose own statefulset get fails and raises `RuntimeError`
("Could not get statefulset" — a message produced only inside `create`),
aborting the whole pass (third conjunct). -/
theorem c5_counterexample :
    ebpf_is_created unauthorized_world.podGet unauthorized_world.stsGet =
      .ok false ∧
    configure_ebpf_volume unauthorized_world.podGet unauthorized_world.stsGet
      unauthorized_world.stsReplaceOk = ([], some "Could not get statefulset") ∧
    configure textParse unauthorized_world =
      ([], some "Could not get statefulset") := by
  exact ⟨rfl, rfl, rfl⟩

/-- C5, amended. When the workload container is not connectable,
`_configure` returns before issuing any call, and
`_upf_config_file_is_written` reports False; but when the eBPF fetch hits
the `Unauthorized` branch, `is_created` returns False and
`_configure_ebpf_volume` proceeds to call `create` (its result is exactly
the create step's result), rather than skipping the apply; no retry
happens within the same pass. -/
theorem c5_amended {Y : Type} [DecidableEq Y] (parse : String → Option Y)
    (w : World) (sg : K8sGet StatefulSetSpec) (rOk : Bool) (f : Option String)
    (h : w.canConnect = false) :
    configure parse w = ([], none) ∧
    upf_config_file_is_written false f = false ∧
    ebpf_is_created (.apiError "Unauthorized") sg = .ok false ∧
    configure_ebpf_volume (.apiError "Unauthorized") sg rOk =
      ebpf_create_step sg rOk := by
  refine ⟨?_, rfl, rfl, rfl⟩
  unfold configure
  rw [h]
  simp

theorem c5_amended_witness :
    configure textParse { desired_world with canConnect := false } = ([], none) ∧
    upf_config_file_is_written false (some "x") = false ∧
    ebpf_is_created (.apiError "Unauthorized") (.ok sts_unpatched) = .ok false ∧
    configure_ebpf_volume (.apiError "Unauthorized") (.ok sts_unpatched) true =
      ebpf_create_step (.ok sts_unpatched) true :=
  c5_amended textParse { desired_world with canConnect := false }
    (.ok sts_unpatched) true (some "x") rfl

/-- C6, counterexample. A permanent failure while creating the eBPF
volume (the statefulset replace call raising, re-raised as
`RuntimeError`) aborts `_configure`: the pass's trace stops at the failed
replace, and none of the later operations (routes, ip-forwarding exec,
config file write, pebble restart, N4 relation publish) is attempted,
although the identical world with a succeeding replace shows they would
all have been. -/
theorem c6_counterexample :
    configure textParse replace_fail_world =
      ([Op.stsReplace ebpf_result_spec], some "Could not replace statefulset") ∧
    configure textParse { replace_fail_world with stsReplaceOk := true } =
      ([Op.stsReplace ebpf_result_spec,
        Op.execCmd (default_route_cmd cfg0),
        Op.execCmd (ran_route_cmd cfg0),
        Op.execCmd ip_forward_cmd,
        Op.filePush (desired_content cfg0 "1.1.1.1"),
        Op.pebbleRestart,
        Op.publishN4 1], none) := by
  exact ⟨rfl, rfl⟩

/-- C6, amended. An uncaught `RuntimeError` from the eBPF volume step
propagates out of `_configure`: whenever that step errors in a pass that
reached it, the pass aborts with that error and no exec, file write,
pebble restart or relation publish is issued in the same pass — failure
of one resource does prevent the later apply operations. -/
theorem c6_amended {Y : Type} [DecidableEq Y] (parse : String → Option Y)
    (w : World) (e : String)
    (h1 : w.configOk = true) (h2 : w.isLeader = true) (h3 : w.canConnect = true)
    (h4 : (configure_pfcp_service w.pfcpGet w.pfcpApplyOk).2 = none)
    (h5 : w.multusAvailable = true)
    (h6 : (multus_configure w.multusGet "eupf" w.multusPatchOk).2 = none)
    (h7 : (configure_ebpf_volume w.podGet w.stsGet w.stsReplaceOk).2 = some e) :
    (configure parse w).2 = some e ∧
    (∀ c, Op.execCmd c ∉ (configure parse w).1) ∧
    (∀ c, Op.filePush c ∉ (configure parse w).1) ∧
    Op.pebbleRestart ∉ (configure parse w).1 ∧
    (∀ i, Op.publishN4 i ∉ (configure parse w).1) := by
  have hconf : configure parse w =
      ((configure_pfcp_service w.pfcpGet w.pfcpApplyOk).1 ++
        ((multus_configure w.multusGet "eupf" w.multusPatchOk).1 ++
          (configure_ebpf_volume w.podGet w.stsGet w.stsReplaceOk).1),
        some e) := by
    unfold configure
    rw [h1, h2, h3, h5]
    rw [andT_none h4]
    simp only [Bool.not_true, Bool.false_eq_true, if_false]
    rw [andT_none h6, andT_some h7, h7]
  have hshape : ∀ x ∈ (configure_pfcp_service w.pfcpGet w.pfcpApplyOk).1 ++
      ((multus_configure w.multusGet "eupf" w.multusPatchOk).1 ++
        (configure_ebpf_volume w.podGet w.stsGet w.stsReplaceOk).1),
      x = Op.pfcpApply ∨ x = Op.multusPatch ∨ ∃ s, x = Op.stsReplace s := by
    intro x hx
    rcases List.mem_append.mp hx with hx | hx
    · rw [configure_pfcp_service_ops] at hx
      revert hx
      split
      · intro hx
        simp at hx
      · intro hx
        simp at hx
        exact Or.inl hx
    · rcases List.mem_append.mp hx with hx | hx
      · rcases multus_configure_ops w.multusGet "eupf" w.multusPatchOk with
          hm | hm <;> rw [hm] at hx
        · simp at hx
        · simp at hx
          exact Or.inr (Or.inl hx)
      · rcases configure_ebpf_volume_ops w.podGet w.stsGet w.stsReplaceOk with
          hm | ⟨s, hm⟩ <;> rw [hm] at hx
        · simp at hx
        · simp at hx
          exact Or.inr (Or.inr ⟨s, hx⟩)
  refine ⟨by rw [hconf], ?_, ?_, ?_, ?_⟩
  · intro c hm
    rw [hconf] at hm
    rcases hshape _ hm with h | h | ⟨s, h⟩ <;> simp at h
  · intro c hm
    rw [hconf] at hm
    rcases hshape _ hm with h | h | ⟨s, h⟩ <;> simp at h
  · intro hm
    rw [hconf] at hm
    rcases hshape _ hm with h | h | ⟨s, h⟩ <;> simp at h
  · intro i hm
    rw [hconf] at hm
    rcases hshape _ hm with h | h | ⟨s, h⟩ <;> simp at h

theorem c6_amended_witness :
    (configure textParse replace_fail_world).2 =
      some "Could not replace statefulset" ∧
    Op.pebbleRestart ∉ (configure textParse replace_fail_world).1 ∧
    Op.publishN4 1 ∉ (configure textParse replace_fail_world).1 ∧
    Op.filePush (desired_content cfg0 "1.1.1.1") ∉
      (configure textParse replace_fail_world).1 := by
  obtain ⟨q1, q2, q3, q4, q5⟩ := c6_amended textParse replace_fail_world
    "Could not replace statefulset" rfl rfl rfl rfl rfl rfl rfl
  exact ⟨q1, q4, q5 1, q3 _⟩

/-- C7, counterexample. The claim says apply sends only the fields that
differ and never performs a destructive full-replace. `EBPFVolume.create`
issues `client.replace` whose payload is the entire statefulset: the
payload of the emitted replace operation contains the unrelated container
and the unrelated pre-existing volume — fields that did not differ — not
just the added eBPF volume and mount. -/
theorem c7_counterexample :
    configure_ebpf_volume (.ok pod_unpatched) (.ok sts_unpatched) true =
      ([Op.stsReplace ebpf_result_spec], none) ∧
    other_container ∈ (ebpf_result_spec.templateSpec.getD ⟨[], none⟩).containers ∧
    other_volume ∈ (ebpf_result_spec.templateSpec.getD ⟨[], none⟩).volumes.getD [] := by
  exact ⟨rfl, by decide, by decide⟩

/-- C7, amended. `EBPFVolume.create` fetches the statefulset and issues a
full replace of it; relative to the fetched state the change is purely
additive: every container other than the (first) workload container is
unchanged in place, the workload container keeps its existing volume
mounts with the eBPF mount appended, and the existing volumes are kept
with the eBPF volume appended. (`PFCPService.create` likewise sends a
full service spec, via server-side apply.) -/
theorem c7_amended (l₁ l₂ : List Container) (c₀ : Container)
    (vols : Option (List Volume))
    (hl : ∀ y ∈ l₁, y.name ≠ container_name) (hc : c₀.name = container_name) :
    ebpf_create_spec ⟨some ⟨l₁ ++ c₀ :: l₂, vols⟩⟩ =
      .ok ⟨some ⟨l₁ ++ { c₀ with volumeMounts := some (c₀.volumeMounts.getD [] ++ [requested_volumemount]) } :: l₂,
        some (vols.getD [] ++ [requested_volume])⟩⟩ := by
  have hfind : (l₁ ++ c₀ :: l₂).find? (fun c => c.name = container_name) = some c₀ :=
    find?_append_of_none _ l₁ l₂ c₀ (fun y hy => by simp [hl y hy]) (by simp [hc])
  have hupd : updateFirst (fun c => c.name = container_name)
      (fun c => { c with volumeMounts := some (c.volumeMounts.getD [] ++ [requested_volumemount]) })
      (l₁ ++ c₀ :: l₂) =
      l₁ ++ { c₀ with volumeMounts := some (c₀.volumeMounts.getD [] ++ [requested_volumemount]) } :: l₂ :=
    updateFirst_append_of_none _ _ l₁ l₂ c₀ (fun y hy => by simp [hl y hy])
      (by simp [hc])
  simp [ebpf_create_spec, get_container, hfind, hupd]

theorem c7_amended_witness :
    ebpf_create_spec
        ⟨some ⟨[other_container, eupf_container_plain], some [other_volume]⟩⟩ =
      .ok ⟨some ⟨[other_container,
        ⟨"eupf", some [requested_volumemount], some sc_patched⟩],
        some [other_volume, requested_volume]⟩⟩ := by
  have h := c7_amended [other_container] [] eupf_container_plain
    (some [other_volume]) (by decide) (by decide)
  simpa [eupf_container_plain] using h

/-- C8, counterexample. Two worlds with identical charm configuration
(and identical everything else except the observed pod IP) make the pass
push different config-file contents: the rendered content depends on
`get_pod_ip()`, an observed external value, so DesiredState is not a pure
function of configuration. -/
theorem c8_counterexample :
    desired_content cfg0 "1.1.1.1" ≠ desired_content cfg0 "2.2.2.2" ∧
    Op.filePush (desired_content cfg0 "1.1.1.1") ∈
      (configure textParse (podip_world "1.1.1.1")).1 ∧
    Op.filePush (desired_content cfg0 "2.2.2.2") ∈
      (configure textParse (podip_world "2.2.2.2")).1 ∧
    (podip_world "1.1.1.1").config = (podip_world "2.2.2.2").config := by
  exact ⟨by decide, by decide, by decide, rfl⟩

/-- C8, amended. The desired config-file content is a pure function of
the charm configuration and the observed pod IP: every file push issued
by a reconciliation pass carries exactly
`desired_content w.config w.podIP`, whatever the rest of the observed
external state is. -/
theorem c8_amended {Y : Type} [DecidableEq Y] (parse : String → Option Y)
    (w : World) (c : String)
    (h : Op.filePush c ∈ (configure parse w).1) :
    c = desired_content w.config w.podIP := by
  rcases mem_configure parse w _ h with h | h | h | h | h | h | h | h
  · rw [configure_pfcp_service_ops] at h
    revert h
    split <;> intro h <;> simp at h
  · rcases multus_configure_ops w.multusGet "eupf" w.multusPatchOk with e | e <;>
      rw [e] at h <;> simp at h
  · rcases configure_ebpf_volume_ops w.podGet w.stsGet w.stsReplaceOk with
      e | ⟨s, e⟩ <;> rw [e] at h <;> simp at h
  · obtain ⟨cmd, hc⟩ := configure_routes_ops _ _ _ h
    simp at hc
  · simp [enable_ip_forwarding] at h
  · rcases generate_config_file_ops parse w.canConnect w.file
      (desired_content w.config w.podIP) with e | e
    · rw [e] at h
      simp at h
    · rw [e] at h
      simp at h
      exact h
  · rcases configure_pebble_ops _ _ _ _ h with e | e | e <;> simp at e
  · obtain ⟨i, hi⟩ := update_fiveg_n4_ops _ _ h
    simp at hi

theorem c8_amended_witness :
    desired_content cfg0 "1.1.1.1" =
      desired_content (podip_world "1.1.1.1").config (podip_world "1.1.1.1").podIP :=
  c8_amended textParse (podip_world "1.1.1.1")
    (desired_content cfg0 "1.1.1.1") (by decide)
